import Mathlib

/-!
Verification of the `tower-cache-control` middleware (`src/lib.rs`).

The middleware (`CacheControlService`) wraps an inner handler.  On each call
it resolves an effective default `CacheControl` directive, reads the request
side `Cache-Control` header as a hint (treated as absent when it parses to
the empty directive), forwards the request to the inner handler, propagates
the inner handler's error unchanged, leaves the response alone when the
response already carries a parseable `Cache-Control` header, and otherwise
attaches a directive computed from the response status.

The `CacheControl` value type comes from the external `headers` crate: a
record of boolean flags plus optional second counts, with an empty
constructor (`new`) and builder methods (`with_max_age`, `with_public`,
`with_private`, `with_no_cache`) that each set their own field and leave
every other field untouched; equality is structural.
-/

namespace TowerCacheControl

/-- The `headers::CacheControl` structured value: boolean directive flags and
optional durations (in whole seconds, as produced by `Duration::from_secs`).
The field set mirrors the crate's struct (a bitflags word plus four optional
`Seconds` fields); `private` is a Lean keyword, hence `private_`. -/
structure CacheControl where
  no_cache : Bool
  no_store : Bool
  no_transform : Bool
  only_if_cached : Bool
  must_revalidate : Bool
  public : Bool
  private_ : Bool
  immutable : Bool
  max_age : Option Nat
  max_stale : Option Nat
  min_fresh : Option Nat
  s_max_age : Option Nat
deriving DecidableEq, Repr

/-- `CacheControl::new()`: the empty (default-constructed) directive. -/
def CacheControl.new : CacheControl :=
  ⟨false, false, false, false, false, false, false, false, none, none, none, none⟩

/-- `CacheControl::with_max_age(duration)`: sets `max_age`, keeps the rest. -/
def CacheControl.with_max_age (c : CacheControl) (secs : Nat) : CacheControl :=
  { c with max_age := some secs }

/-- `CacheControl::with_public()`: sets the `public` flag, keeps the rest. -/
def CacheControl.with_public (c : CacheControl) : CacheControl :=
  { c with public := true }

/-- `CacheControl::with_private()`: sets the `private` flag, keeps the rest. -/
def CacheControl.with_private (c : CacheControl) : CacheControl :=
  { c with private_ := true }

/-- `CacheControl::with_no_cache()`: sets the `no_cache` flag, keeps the rest. -/
def CacheControl.with_no_cache (c : CacheControl) : CacheControl :=
  { c with no_cache := true }

/-- `http::StatusCode::is_success`: the 2xx class. -/
def isSuccess (s : Nat) : Bool := 200 ≤ s && s < 300

/-- `http::StatusCode::is_redirection`: the 3xx class. -/
def isRedirection (s : Nat) : Bool := 300 ≤ s && s < 400

/-- `http::StatusCode::is_client_error`: the 4xx class. -/
def isClientError (s : Nat) : Bool := 400 ≤ s && s < 500

/-- `http::StatusCode::is_informational`: the 1xx class. -/
def isInformational (s : Nat) : Bool := 100 ≤ s && s < 200

/-- An HTTP request as the middleware sees it: the decoded `Cache-Control`
header, if present and parseable (`headers().typed_get::<CacheControl>()`),
plus the rest of the request (body, other headers) as an opaque payload. -/
structure Request (ρ : Type) where
  cacheControl : Option CacheControl
  payload : ρ
deriving DecidableEq

/-- An HTTP response as the middleware sees it: the status code, the decoded
`Cache-Control` header if present and parseable, and the rest of the
response as an opaque payload. -/
structure Response (β : Type) where
  status : Nat
  cacheControl : Option CacheControl
  payload : β
deriving DecidableEq

/-- The built-in default used when no directive was configured:
`CacheControl::new().with_max_age(Duration::from_secs(5))`. -/
def fallbackDefault : CacheControl := CacheControl.new.with_max_age 5

/-- The request-hint extraction on lines 80–83 of `lib.rs`:
`typed_get::<CacheControl>().and_then(|h| h.ne(&CacheControl::new()).then_some(h))`.
A header that parses to the empty directive is dropped. -/
def requestHint (c : Option CacheControl) : Option CacheControl :=
  c.bind fun header => if header ≠ CacheControl.new then some header else none

/-- The `match response.status()` expression on lines 88–98 of `lib.rs`:
the directive attached to a response that carries no `Cache-Control` header,
as a function of the status, the (already filtered) request hint and the
effective default. -/
def responseHeader (status : Nat) (hint : Option CacheControl)
    (dflt : CacheControl) : CacheControl :=
  if status = 301 then (dflt.with_max_age 86400).with_public
  else if isSuccess status then hint.getD dflt
  else if isRedirection status then (hint.getD dflt).with_private
  else if isClientError status then dflt.with_no_cache.with_private
  else (dflt.with_max_age 1800).with_public

/-- `CacheControlService::call` (lines 72–102 of `lib.rs`), with the inner
service modelled as a function from requests to `Except ε (Response β)`
(the awaited `Result` of its future).  The effective default is the
configured directive or the 5-second fallback; the hint is read from the
request before the inner call; an inner error propagates via `?`; a response
already carrying a parseable directive is returned unchanged; otherwise the
computed directive is inserted. -/
def CacheControlService.call {ρ β ε : Type}
    (dflt : Option CacheControl) (inner : Request ρ → Except ε (Response β))
    (req : Request ρ) : Except ε (Response β) :=
  let d := dflt.getD fallbackDefault
  let hint := requestHint req.cacheControl
  match inner req with
  | Except.error e => Except.error e
  | Except.ok response =>
    match response.cacheControl with
    | some _ => Except.ok response
    | none =>
        Except.ok { response with
          cacheControl := some (responseHeader response.status hint d) }

/-- `Poll`, the readiness result of `tower_service::Service::poll_ready`. -/
inductive Poll (α : Type) where
  | ready : α → Poll α
  | pending : Poll α
deriving DecidableEq

/-- `CacheControlService::poll_ready` (lines 69–71 of `lib.rs`): it calls
`self.inner.poll_ready(cx)` and returns its result.  The inner service's
readiness behaviour is modelled as a function of the polling context. -/
def CacheControlService.poll_ready {κ ε : Type}
    (inner_poll_ready : κ → Poll (Except ε Unit)) (cx : κ) :
    Poll (Except ε Unit) :=
  inner_poll_ready cx

/-- A sample non-empty directive, `max-age=120`, used as a concrete request
hint in witnesses and counterexamples. -/
def hint120 : CacheControl := CacheControl.new.with_max_age 120

/-- Unfolding of the status match at 301. -/
theorem responseHeader_301 (hint : Option CacheControl) (dflt : CacheControl) :
    responseHeader 301 hint dflt = (dflt.with_max_age 86400).with_public := by
  unfold responseHeader
  rw [if_pos rfl]

/-- Unfolding of the status match on the 2xx class. -/
theorem responseHeader_success {s : Nat} (hint : Option CacheControl)
    (dflt : CacheControl) (h : isSuccess s = true) :
    responseHeader s hint dflt = hint.getD dflt := by
  have h2 : 200 ≤ s ∧ s < 300 := by simpa [isSuccess] using h
  unfold responseHeader
  rw [if_neg (by omega), if_pos h]

/-- Unfolding of the status match on the 4xx class. -/
theorem responseHeader_client_error {s : Nat} (hint : Option CacheControl)
    (dflt : CacheControl) (h : isClientError s = true) :
    responseHeader s hint dflt = dflt.with_no_cache.with_private := by
  have h4 : 400 ≤ s ∧ s < 500 := by simpa [isClientError] using h
  unfold responseHeader
  rw [if_neg (by omega),
    if_neg (by simp only [isSuccess, Bool.and_eq_true, decide_eq_true_eq]; omega),
    if_neg (by simp only [isRedirection, Bool.and_eq_true, decide_eq_true_eq]; omega),
    if_pos h]

/-- Unfolding of the status match on the catch-all arm, for statuses at or
above 500 (the 5xx class and everything beyond it). -/
theorem responseHeader_catch_all {s : Nat} (hint : Option CacheControl)
    (dflt : CacheControl) (h : 500 ≤ s) :
    responseHeader s hint dflt = (dflt.with_max_age 1800).with_public := by
  unfold responseHeader
  rw [if_neg (by omega),
    if_neg (by simp only [isSuccess, Bool.and_eq_true, decide_eq_true_eq]; omega),
    if_neg (by simp only [isRedirection, Bool.and_eq_true, decide_eq_true_eq]; omega),
    if_neg (by simp only [isClientError, Bool.and_eq_true, decide_eq_true_eq]; omega)]

/-- A request-side header that parses to the empty directive is filtered out. -/
theorem requestHint_new : requestHint (some CacheControl.new) = none := by
  simp [requestHint]

/-- General shape of a successful call whose response has no directive yet:
the computed `responseHeader` gets attached. -/
theorem call_attaches {ρ β ε : Type} (dflt : Option CacheControl)
    (inner : Request ρ → Except ε (Response β)) (req : Request ρ)
    (resp : Response β) (hcall : inner req = Except.ok resp)
    (hnone : resp.cacheControl = none) :
    CacheControlService.call dflt inner req =
      Except.ok
        { resp with
          cacheControl := some (responseHeader resp.status
            (requestHint req.cacheControl) (dflt.getD fallbackDefault)) } := by
  unfold CacheControlService.call
  rw [hcall]
  simp only [hnone]

/-- Claim C1: the spec puts 1xx with 2xx ("request_hint if present, else
default, unmodified"), matching the crate's own doc comment ("on 1xx and 2xx
takes a request header directive or falls back to a default one"), but the
code's `s.is_success()` arm covers only 2xx, so a 1xx status falls into the
catch-all arm: at status 100 with hint `max-age=120` and no configured
default, the attached directive is `max-age=1800, public`, which is neither
the hint nor the effective default. -/
theorem informational_falls_into_catch_all :
    @CacheControlService.call Unit Unit Unit none
        (fun _ => Except.ok ⟨100, none, ()⟩) ⟨some hint120, ()⟩
      = Except.ok ⟨100, some ⟨false, false, false, false, false, true, false,
          false, some 1800, none, none, none⟩, ()⟩
    ∧ (⟨false, false, false, false, false, true, false, false, some 1800,
        none, none, none⟩ : CacheControl) ≠ hint120
    ∧ (⟨false, false, false, false, false, true, false, false, some 1800,
        none, none, none⟩ : CacheControl) ≠ fallbackDefault :=
  ⟨rfl, by decide, by decide⟩

/-- Claim C2: when the inner handler's response already carries a non-empty
`Cache-Control` directive, the call returns the response unchanged (header
included): the decision table is never consulted and nothing is attached. -/
theorem existing_nonempty_directive_preserved {ρ β ε : Type}
    (dflt : Option CacheControl) (inner : Request ρ → Except ε (Response β))
    (req : Request ρ) (resp : Response β) (cc : CacheControl)
    (hcall : inner req = Except.ok resp)
    (hcc : resp.cacheControl = some cc) (_hne : cc ≠ CacheControl.new) :
    CacheControlService.call dflt inner req = Except.ok resp := by
  unfold CacheControlService.call
  rw [hcall]
  simp only [hcc]

/-- Witness for C2 at a concrete input: a 200 response already carrying
`max-age=120` passes through unchanged. -/
theorem existing_nonempty_directive_preserved_witness :
    @CacheControlService.call Unit Unit Unit none
      (fun _ => Except.ok ⟨200, some hint120, ()⟩) ⟨none, ()⟩
      = Except.ok ⟨200, some hint120, ()⟩ :=
  existing_nonempty_directive_preserved none
    (fun _ => Except.ok ⟨200, some hint120, ()⟩) ⟨none, ()⟩
    ⟨200, some hint120, ()⟩ hint120 rfl rfl (by decide)

/-- Claim C3 (amended): for status 301 with no pre-existing response
directive, the attached directive is the effective default with max-age set
to 86400 seconds and the public flag set, for every request hint and every
configured default; the default's other fields are retained, not cleared. -/
theorem moved_permanently_directive {ρ β ε : Type} (dflt : Option CacheControl)
    (inner : Request ρ → Except ε (Response β)) (req : Request ρ)
    (resp : Response β) (hcall : inner req = Except.ok resp)
    (hnone : resp.cacheControl = none) (hstatus : resp.status = 301) :
    CacheControlService.call dflt inner req =
      Except.ok
        { resp with
          cacheControl :=
            some (((dflt.getD fallbackDefault).with_max_age 86400).with_public) } := by
  rw [call_attaches dflt inner req resp hcall hnone, hstatus, responseHeader_301]

/-- Witness for C3 (amended) at a concrete input: status 301, hint
`max-age=120`, configured default `private`. -/
theorem moved_permanently_directive_witness :
    @CacheControlService.call Unit Unit Unit (some CacheControl.new.with_private)
      (fun _ => Except.ok ⟨301, none, ()⟩) ⟨some hint120, ()⟩
      = Except.ok ⟨301,
          some ((CacheControl.new.with_private.with_max_age 86400).with_public), ()⟩ :=
  moved_permanently_directive (some CacheControl.new.with_private)
    (fun _ => Except.ok ⟨301, none, ()⟩) ⟨some hint120, ()⟩
    ⟨301, none, ()⟩ rfl rfl rfl

/-- Counterexample to C3 as stated: with configured default `private`, the
directive attached at 301 is `max-age=86400, public, private`, which is not
exactly `max-age=86400, public` — the default's other fields survive. -/
theorem moved_permanently_not_exact :
    @CacheControlService.call Unit Unit Unit (some CacheControl.new.with_private)
        (fun _ => Except.ok ⟨301, none, ()⟩) ⟨some hint120, ()⟩
      = Except.ok ⟨301, some ⟨false, false, false, false, false, true, true,
          false, some 86400, none, none, none⟩, ()⟩
    ∧ (⟨false, false, false, false, false, true, true, false, some 86400,
        none, none, none⟩ : CacheControl)
      ≠ (CacheControl.new.with_max_age 86400).with_public :=
  ⟨rfl, by decide⟩

/-- Claim C4 (amended): for every 4xx status with no pre-existing response
directive, the attached directive is the effective default with the no-cache
and private flags set, for every request hint and every configured default;
the default's max-age (and other fields) are retained, not removed. -/
theorem client_error_directive {ρ β ε : Type} (dflt : Option CacheControl)
    (inner : Request ρ → Except ε (Response β)) (req : Request ρ)
    (resp : Response β) (hcall : inner req = Except.ok resp)
    (hnone : resp.cacheControl = none)
    (hstatus : isClientError resp.status = true) :
    CacheControlService.call dflt inner req =
      Except.ok
        { resp with
          cacheControl :=
            some ((dflt.getD fallbackDefault).with_no_cache.with_private) } := by
  rw [call_attaches dflt inner req resp hcall hnone,
    responseHeader_client_error _ _ hstatus]

/-- Witness for C4 (amended) at a concrete input: status 404, hint
`max-age=120`, configured default `max-age=10`. -/
theorem client_error_directive_witness :
    @CacheControlService.call Unit Unit Unit (some (CacheControl.new.with_max_age 10))
      (fun _ => Except.ok ⟨404, none, ()⟩) ⟨some hint120, ()⟩
      = Except.ok ⟨404,
          some ((CacheControl.new.with_max_age 10).with_no_cache.with_private), ()⟩ :=
  client_error_directive (some (CacheControl.new.with_max_age 10))
    (fun _ => Except.ok ⟨404, none, ()⟩) ⟨some hint120, ()⟩
    ⟨404, none, ()⟩ rfl rfl (by decide)

/-- Counterexample to C4 as stated: with configured default `max-age=10`,
the directive attached at 404 is `max-age=10, no-cache, private`: the
default's max-age is present in the result, not absent, and the result is
not exactly `no-cache, private`. -/
theorem client_error_keeps_default_max_age :
    @CacheControlService.call Unit Unit Unit (some (CacheControl.new.with_max_age 10))
        (fun _ => Except.ok ⟨404, none, ()⟩) ⟨none, ()⟩
      = Except.ok ⟨404, some ⟨true, false, false, false, false, false, true,
          false, some 10, none, none, none⟩, ()⟩
    ∧ (⟨true, false, false, false, false, false, true, false, some 10,
        none, none, none⟩ : CacheControl).max_age ≠ none
    ∧ (⟨true, false, false, false, false, false, true, false, some 10,
        none, none, none⟩ : CacheControl)
      ≠ CacheControl.new.with_no_cache.with_private :=
  ⟨rfl, by decide, by decide⟩

/-- Claim C5: when the inner handler resolves to a failure, the call resolves
to exactly that failure and the response-mutation step is never reached. -/
theorem inner_error_propagated {ρ β ε : Type} (dflt : Option CacheControl)
    (inner : Request ρ → Except ε (Response β)) (req : Request ρ) (e : ε)
    (hcall : inner req = Except.error e) :
    CacheControlService.call dflt inner req = Except.error e := by
  unfold CacheControlService.call
  rw [hcall]

/-- Witness for C5 at a concrete input: an inner handler failing with the
error value 7. -/
theorem inner_error_propagated_witness :
    @CacheControlService.call Unit Unit Nat none
      (fun _ => Except.error 7) ⟨none, ()⟩ = Except.error 7 :=
  inner_error_propagated none (fun _ => Except.error 7) ⟨none, ()⟩ 7 rfl

/-- Claim C6: a request whose `Cache-Control` header parses to the empty
(default-constructed) directive is treated as carrying no hint: for a 2xx
response with no pre-existing directive, the effective default is attached
instead of the empty hint. -/
theorem empty_request_hint_ignored {ρ β ε : Type} (dflt : Option CacheControl)
    (inner : Request ρ → Except ε (Response β)) (req : Request ρ)
    (resp : Response β) (hreq : req.cacheControl = some CacheControl.new)
    (hcall : inner req = Except.ok resp) (hnone : resp.cacheControl = none)
    (hstatus : isSuccess resp.status = true) :
    CacheControlService.call dflt inner req =
      Except.ok { resp with cacheControl := some (dflt.getD fallbackDefault) } := by
  rw [call_attaches dflt inner req resp hcall hnone, hreq, requestHint_new,
    responseHeader_success _ _ hstatus]
  rfl

/-- Witness for C6 at a concrete input: status 204, empty request directive,
no configured default — the 5-second fallback is attached. -/
theorem empty_request_hint_ignored_witness :
    @CacheControlService.call Unit Unit Unit none
      (fun _ => Except.ok ⟨204, none, ()⟩) ⟨some CacheControl.new, ()⟩
      = Except.ok ⟨204, some fallbackDefault, ()⟩ :=
  empty_request_hint_ignored none
    (fun _ => Except.ok ⟨204, none, ()⟩) ⟨some CacheControl.new, ()⟩
    ⟨204, none, ()⟩ rfl rfl rfl (by decide)

/-- Claim C7: for status 200 with no request hint and no configured default,
the attached directive is exactly `max-age=5` (the built-in fallback). -/
theorem success_fallback_directive {ρ β ε : Type}
    (inner : Request ρ → Except ε (Response β)) (req : Request ρ)
    (resp : Response β) (hreq : req.cacheControl = none)
    (hcall : inner req = Except.ok resp) (hnone : resp.cacheControl = none)
    (hstatus : resp.status = 200) :
    CacheControlService.call none inner req =
      Except.ok
        { resp with
          cacheControl := some ⟨false, false, false, false, false, false,
            false, false, some 5, none, none, none⟩ } := by
  rw [call_attaches none inner req resp hcall hnone, hreq, hstatus]
  rfl

/-- Witness for C7 at a concrete input: status 200, no request directive, no
configured default. -/
theorem success_fallback_directive_witness :
    @CacheControlService.call Unit Unit Unit none
      (fun _ => Except.ok ⟨200, none, ()⟩) ⟨none, ()⟩
      = Except.ok ⟨200, some ⟨false, false, false, false, false, false,
          false, false, some 5, none, none, none⟩, ()⟩ :=
  success_fallback_directive
    (fun _ => Except.ok ⟨200, none, ()⟩) ⟨none, ()⟩
    ⟨200, none, ()⟩ rfl rfl rfl rfl

/-- Claim C8: for every status at or above 500 (the 5xx class and everything
beyond, all of which reach the catch-all arm) with no pre-existing response
directive and no configured default, the attached directive is exactly
`max-age=1800, public`, whatever the request hint. -/
theorem server_error_directive {ρ β ε : Type}
    (inner : Request ρ → Except ε (Response β)) (req : Request ρ)
    (resp : Response β) (hcall : inner req = Except.ok resp)
    (hnone : resp.cacheControl = none) (hstatus : 500 ≤ resp.status) :
    CacheControlService.call none inner req =
      Except.ok
        { resp with
          cacheControl := some ⟨false, false, false, false, false, true,
            false, false, some 1800, none, none, none⟩ } := by
  rw [call_attaches none inner req resp hcall hnone,
    responseHeader_catch_all _ _ hstatus]
  rfl

/-- Witness for C8 at a concrete input: status 503 with request hint
`max-age=120` — the hint is ignored. -/
theorem server_error_directive_witness :
    @CacheControlService.call Unit Unit Unit none
      (fun _ => Except.ok ⟨503, none, ()⟩) ⟨some hint120, ()⟩
      = Except.ok ⟨503, some ⟨false, false, false, false, false, true,
          false, false, some 1800, none, none, none⟩, ()⟩ :=
  server_error_directive
    (fun _ => Except.ok ⟨503, none, ()⟩) ⟨some hint120, ()⟩
    ⟨503, none, ()⟩ rfl rfl (by decide)

/-- Claim C9: the wrapper's `poll_ready` returns exactly the inner handler's
`poll_ready` result on the same polling context, with no alteration. -/
theorem poll_ready_forwards {κ ε : Type}
    (inner_poll_ready : κ → Poll (Except ε Unit)) (cx : κ) :
    CacheControlService.poll_ready inner_poll_ready cx = inner_poll_ready cx :=
  rfl

/-- Claim C10: a response whose `Cache-Control` header parses to the empty
(default-constructed) directive also short-circuits the table — the
response-side presence test accepts any parseable header, unlike the
request-side hint, and the response passes through unchanged. -/
theorem empty_response_directive_short_circuits {ρ β ε : Type}
    (dflt : Option CacheControl) (inner : Request ρ → Except ε (Response β))
    (req : Request ρ) (resp : Response β)
    (hcall : inner req = Except.ok resp)
    (hcc : resp.cacheControl = some CacheControl.new) :
    CacheControlService.call dflt inner req = Except.ok resp := by
  unfold CacheControlService.call
  rw [hcall]
  simp only [hcc]

/-- Witness for C10 at a concrete input: a 200 response carrying the empty
directive passes through unchanged. -/
theorem empty_response_directive_short_circuits_witness :
    @CacheControlService.call Unit Unit Unit none
      (fun _ => Except.ok ⟨200, some CacheControl.new, ()⟩) ⟨none, ()⟩
      = Except.ok ⟨200, some CacheControl.new, ()⟩ :=
  empty_response_directive_short_circuits none
    (fun _ => Except.ok ⟨200, some CacheControl.new, ()⟩) ⟨none, ()⟩
    ⟨200, some CacheControl.new, ()⟩ rfl rfl

end TowerCacheControl
